import Mathlib

/-!
Verification of the time-series retention and trend-derivation engine of the
Steam Scout scripts.  Two script variants are embedded:

* `steam_scout.py` (v2.0): History sheet rows, `append_history_rows`
  (ingestion and the 8-day trim pass) and `compute_3d_trends_from_history`.
* `steam-scout/steam_scout.py` (v1.8.3): the CSV log, `compute_7d_trends`
  and `build_watchlist`.

Modelling conventions:
* Sheet / CSV cells are strings, exactly as `get_all_values` / `csv.DictReader`
  return them.
* Python floats are modelled as exact rationals (`ℚ`); machine rounding is not
  relevant to any property below.
* Library parsers are abstract parameters: `parseTs` models
  `datetime.fromisoformat` (`none` = `ValueError`), `parseCcu` models
  `int(float(·))`, `pyInt` models `int(·)`, `pyFloat` models `float(·)`.
  Timestamps are integers (e.g. epoch seconds); `fromisoformat` produces
  totally ordered instants, which is all the code uses.
* Python's `list.sort` / `sorted` are stable sorts; any two stable sorts with
  the same total preorder return the same list, so they are modelled by
  `List.insertionSort` (which is stable).
-/

namespace SteamScout

/-! ### v2.0 (`steam_scout.py`): data model -/

/-- One data row of the History sheet, columns
`timestamp_utc, appid, game_title, current_players` (all cells are strings as
returned by `get_all_values`; the header row is handled separately). -/
structure HistRow where
  timestamp_utc : String
  appid : String
  game_title : String
  current_players : String
deriving DecidableEq

/-- One entry of the result of `compute_3d_trends_from_history`:
`{"ccu_3d_ago": ..., "pct_change_3d": ...}`.  `none` models Python `None`. -/
structure TrendEntry where
  ccu_3d_ago : Option ℤ
  pct_change_3d : ℚ
deriving DecidableEq

/-- The fields of a `today_rows` dict that `append_history_rows` reads:
`"Steam App ID"`, `"Game Title"`, `"Current Players (Latest)"`.
`none` models a missing key / `None` value; the metric cell is kept as the raw
value handed to `int(·)`. -/
structure TodayRow where
  steam_app_id : Option ℤ
  game_title : Option String
  current_players : Option String
deriving DecidableEq

/-! ### v2.0: ingestion (`append_history_rows`, lines 272–285) -/

/-- The `rows_to_append` list built by `append_history_rows`: a row is skipped
when `not appid or ccu is None` (falsy appid: `None` or `0`), or when
`int(ccu)` raises; otherwise `[now_utc, str(appid), str(title or ""), ccu_int]`
is appended.  `pyInt` models Python `int(·)` with `none` for an exception. -/
def rows_to_append (pyInt : String → Option ℤ) (now_utc : String)
    (today_rows : List TodayRow) : List HistRow :=
  today_rows.filterMap fun row =>
    row.steam_app_id.bind fun appid =>
      if appid = 0 then none
      else
        row.current_players.bind fun ccu =>
          (pyInt ccu).map fun ccu_int =>
            ⟨now_utc, toString appid, row.game_title.getD "", toString ccu_int⟩

/-! ### v2.0: retention trim (`append_history_rows`, lines 287–312) -/

/-- The trim pass at the end of `append_history_rows`: a data row is kept when
its `timestamp_utc` cell fails to parse (the `except: keep.append(r)` branch)
or parses to an instant `>= eight_days_ago` (the cutoff).  The header row is
preserved separately and `len(values) <= 1` short-circuits to no change, which
coincides with filtering an empty data-row list. -/
def trim_history (parseTs : String → Option ℤ) (cutoff : ℤ)
    (rows : List HistRow) : List HistRow :=
  rows.filter fun r =>
    (parseTs r.timestamp_utc).elim true fun ts => decide (cutoff ≤ ts)

/-! ### v2.0: 3-day trends (`compute_3d_trends_from_history`, lines 315–377) -/

/-- The per-app history list `per_app.get(str(appid))`: sheet data rows whose
timestamp parses and is `>= cutoff` (`now - 3 days`), whose `appid` cell equals
the key, and whose `current_players` cell parses via `int(float(·))`; kept in
sheet order as `(ts, ccu)` pairs. -/
def windowSamples (parseTs parseCcu : String → Option ℤ) (cutoff : ℤ)
    (rows : List HistRow) (key : String) : List (ℤ × ℤ) :=
  rows.filterMap fun r =>
    (parseTs r.timestamp_utc).bind fun ts =>
      if ts < cutoff then none
      else if r.appid = key then
        (parseCcu r.current_players).map fun ccu => (ts, ccu)
      else none

/-- `hist.sort(key=lambda x: x[0])`: the window samples stably sorted by
timestamp ascending. -/
def sortedWindow (parseTs parseCcu : String → Option ℤ) (cutoff : ℤ)
    (rows : List HistRow) (key : String) : List (ℤ × ℤ) :=
  (windowSamples parseTs parseCcu cutoff rows key).insertionSort
    fun a b => a.1 ≤ b.1

/-- `oldest_ts, oldest_ccu = hist[0]` (after sorting): the oldest metric value
in the window.  The default is irrelevant under the `len(hist) >= 2` guard. -/
def oldestCcu (parseTs parseCcu : String → Option ℤ) (cutoff : ℤ)
    (rows : List HistRow) (key : String) : ℤ :=
  ((sortedWindow parseTs parseCcu cutoff rows key).headD (0, 0)).2

/-- `latest_ts, latest_ccu = hist[-1]` (after sorting): the latest metric value
in the window. -/
def latestCcu (parseTs parseCcu : String → Option ℤ) (cutoff : ℤ)
    (rows : List HistRow) (key : String) : ℤ :=
  ((sortedWindow parseTs parseCcu cutoff rows key).getLastD (0, 0)).2

/-- The body of the `for appid in appids` loop of
`compute_3d_trends_from_history`: fewer than 2 window samples yield the
zero-signal entry `{"ccu_3d_ago": None, "pct_change_3d": 0.0}`; otherwise the
oldest/latest pair gives the percentage, with a zero-baseline guard
(`oldest_ccu <= 0` forces `pct = 0.0`). -/
def trendForApp (parseTs parseCcu : String → Option ℤ) (cutoff : ℤ)
    (rows : List HistRow) (key : String) : TrendEntry :=
  if (windowSamples parseTs parseCcu cutoff rows key).length < 2 then ⟨none, 0⟩
  else
    let oldest := oldestCcu parseTs parseCcu cutoff rows key
    let latest := latestCcu parseTs parseCcu cutoff rows key
    if oldest ≤ 0 then ⟨some oldest, 0⟩
    else ⟨some oldest, ((latest : ℚ) - (oldest : ℚ)) / (oldest : ℚ) * 100⟩

/-- `compute_3d_trends_from_history`: an empty data-row set (worksheet missing
or `len(values) <= 1`) returns the empty mapping; otherwise one entry per
requested appid, keyed by `str(appid)` into the per-app histories.  The result
dict is modelled as an association list in `appids` order. -/
def compute_3d_trends_from_history (parseTs parseCcu : String → Option ℤ)
    (cutoff : ℤ) (rows : List HistRow) (appids : List ℤ) :
    List (ℤ × TrendEntry) :=
  if rows = [] then []
  else appids.map fun a => (a, trendForApp parseTs parseCcu cutoff rows (toString a))

/-- `dict.get(key)` on the result dict (modelled as an association list):
the first binding of the key, if any. -/
def dictGet : List (ℤ × TrendEntry) → ℤ → Option TrendEntry
  | [], _ => none
  | p :: rest, k => if p.1 = k then some p.2 else dictGet rest k

/-- `trends_3d.get(appid, {"ccu_3d_ago": None, "pct_change_3d": 0.0})` as used
by `main` (line 500) when building the trend rows. -/
def trends_3d_get (parseTs parseCcu : String → Option ℤ) (cutoff : ℤ)
    (rows : List HistRow) (appids : List ℤ) (appid : ℤ) : TrendEntry :=
  (dictGet (compute_3d_trends_from_history parseTs parseCcu cutoff rows appids)
    appid).getD ⟨none, 0⟩

/-! ### v2.0: watchlist filter in `main` (lines 511–527) -/

/-- The fields of a v2.0 trend row that the watchlist step reads:
`"Current Players (Latest)"` (already an `int` after the `int(ccu)` coercion),
`"3-Day Players (Oldest)"` and `"3-Day Player % Change"` as filled from the
3-day trend entry. -/
structure TrendRowV2 where
  steam_app_id : ℤ
  current_players : ℤ
  ccu_3d_ago : Option ℤ
  pct_change_3d : ℚ
deriving DecidableEq

/-- The v2.0 watchlist: `main` keeps the trend rows with
`ccu >= args.watch_min_ccu and pct3 >= args.watch_min_pct`, in their original
order; no sorting step exists in this variant. -/
def watch_rows (watch_min_ccu : ℤ) (watch_min_pct : ℚ)
    (trend_rows : List TrendRowV2) : List TrendRowV2 :=
  trend_rows.filter fun tr =>
    decide (watch_min_ccu ≤ tr.current_players) &&
      decide (watch_min_pct ≤ tr.pct_change_3d)

/-! ### v1.8.3 (`steam-scout/steam_scout.py`): data model -/

/-- One row of the CSV log (`steam_scout_log.csv`) with the fields that
`compute_7d_trends` reads; every cell is a string as `csv.DictReader` returns
it. -/
structure LogRow where
  date : String
  appid : String
  title : String
  release_date : String
  publisher : String
  price : String
  is_free : String
  genres : String
  ccu_now : String
deriving DecidableEq

/-- The all-empty log row, used only as the (unreachable) default of
`window[0]` / `window[-1]` under the nonempty-window guard. -/
def emptyLogRow : LogRow := ⟨"", "", "", "", "", "", "", "", ""⟩

/-- One trend dict produced by `compute_7d_trends`. -/
structure Trend7 where
  appid : String
  title : String
  release_date : String
  publisher : String
  price : String
  is_free : String
  genres : String
  ccu_latest : ℚ
  ccu_pct_change_7d : ℚ
  days_in_window : ℕ
deriving DecidableEq

/-- Python `round(x, 2)`: two decimal digits.  Python breaks exact ties toward
even while `round` here rounds half up; no property below depends on a tie. -/
def round2 (x : ℚ) : ℚ := (round (x * 100) : ℚ) / 100

/-- The local `fnum(r, k)` of `compute_7d_trends`: `float(r.get(k) or 0)` with
`except: return 0.0`.  An empty cell is falsy, hence `0`; `pyFloat` models
`float(·)` with `none` for an exception. -/
def fnum (pyFloat : String → Option ℚ) (s : String) : ℚ :=
  if s = "" then 0 else (pyFloat s).getD 0

/-! ### v1.8.3: `compute_7d_trends` (lines 141–171) -/

/-- Python string `<`: lexicographic comparison by code point, defined
structurally on the character lists. -/
def charListLt : List Char → List Char → Bool
  | [], [] => false
  | [], _ :: _ => true
  | _ :: _, [] => false
  | a :: as, b :: bs => if a < b then true else if b < a then false else charListLt as bs

/-- Python `x >= y` on strings: `not (x < y)`. -/
def pyStrGe (x y : String) : Bool := !(charListLt x.toList y.toList)

/-- The sort key order `x["date"]` of the per-app stable sort: Python
`a.date <= b.date`, i.e. `not (b.date < a.date)`. -/
def dateLe (a b : LogRow) : Prop := charListLt b.date.toList a.date.toList = false

instance (a b : LogRow) : Decidable (dateLe a b) :=
  inferInstanceAs (Decidable (_ = _))

/-- `per_app[aid]` after the per-app stable sort by `x["date"]`
(lines 142–146): the log rows of one appid, in log order, sorted stably by
date string. -/
def appRowsSorted (log : List LogRow) (aid : String) : List LogRow :=
  (log.filter fun r => decide (r.appid = aid)).insertionSort dateLe

/-- `window = [r for r in rows if r["date"] >= cutoff]` (line 150): the in-window
rows of one appid; the cutoff is the ISO date string of `now - 7 days` and the
comparison is Python string comparison. -/
def window7 (log : List LogRow) (cutoff : String) (aid : String) : List LogRow :=
  (appRowsSorted log aid).filter fun r => pyStrGe r.date cutoff

/-- The body of the `for aid, rows in per_app.items()` loop (lines 149–170):
`none` models the `if not window: continue` skip; otherwise the trend dict with
`ccu_latest = round(ccu_l, 2)`, `ccu_pct_change_7d = round(pct, 2)` and the
zero-baseline fallback `pct = 100 if ccu_l > 0 else 0` when `ccu_e <= 0`. -/
def trend7For (pyFloat : String → Option ℚ) (log : List LogRow)
    (cutoff : String) (aid : String) : Option Trend7 :=
  let window := window7 log cutoff aid
  if window.isEmpty then none
  else
    let latest := window.getLastD emptyLogRow
    let earliest := window.headD emptyLogRow
    let ccu_l := fnum pyFloat latest.ccu_now
    let ccu_e := fnum pyFloat earliest.ccu_now
    let pct := if ccu_e > 0 then (ccu_l - ccu_e) / ccu_e * 100
               else if ccu_l > 0 then 100 else 0
    some { appid := aid, title := latest.title,
           release_date := latest.release_date, publisher := latest.publisher,
           price := latest.price, is_free := latest.is_free,
           genres := latest.genres, ccu_latest := round2 ccu_l,
           ccu_pct_change_7d := round2 pct, days_in_window := window.length }

/-- The iteration order of `per_app.items()`: appids in order of first
appearance in the log (Python dicts preserve insertion order). -/
def logAppids (log : List LogRow) : List String :=
  log.foldl (fun acc r => if r.appid ∈ acc then acc else acc ++ [r.appid]) []

/-- The descending lexicographic preorder used by
`sorted(trends, key=lambda r: (r["ccu_pct_change_7d"], r["ccu_latest"]),
reverse=True)`: `a` may precede `b` iff `key b <= key a`. -/
def trendSortRel (a b : Trend7) : Prop :=
  b.ccu_pct_change_7d < a.ccu_pct_change_7d ∨
    (b.ccu_pct_change_7d = a.ccu_pct_change_7d ∧ b.ccu_latest ≤ a.ccu_latest)

instance (a b : Trend7) : Decidable (trendSortRel a b) :=
  inferInstanceAs (Decidable (_ ∨ _))

/-- `compute_7d_trends(log_rows)`: one trend dict per appid with a nonempty
window, sorted descending by `(pct, ccu_latest)` (Python's `sorted` with
`reverse=True` is stable). -/
def compute_7d_trends (pyFloat : String → Option ℚ) (log : List LogRow)
    (cutoff : String) : List Trend7 :=
  ((logAppids log).filterMap (trend7For pyFloat log cutoff)).insertionSort
    trendSortRel

/-! ### v1.8.3: `build_watchlist` (lines 173–188) -/

/-- The `rows.sort(key=..., reverse=True)` key of `build_watchlist`:
`(r["days_in_window"] >= 2, r["ccu_pct_change_7d"], r["ccu_latest"])`. -/
def wlKey (t : Trend7) : Bool × ℚ × ℚ :=
  (decide (2 ≤ t.days_in_window), t.ccu_pct_change_7d, t.ccu_latest)

/-- Non-strict lexicographic order on the watchlist key tuples
(`false < true` on the boolean component, as in Python). -/
def keyLe (x y : Bool × ℚ × ℚ) : Prop :=
  x.1 < y.1 ∨
    (x.1 = y.1 ∧ (x.2.1 < y.2.1 ∨ (x.2.1 = y.2.1 ∧ x.2.2 ≤ y.2.2)))

instance (x y : Bool × ℚ × ℚ) : Decidable (keyLe x y) :=
  inferInstanceAs (Decidable (_ ∨ _))

/-- The descending-by-key preorder realised by
`rows.sort(key=..., reverse=True)` in `build_watchlist`: `a` may precede `b`
iff `wlKey b <= wlKey a`. -/
def wlRel (a b : Trend7) : Prop := keyLe (wlKey b) (wlKey a)

instance (a b : Trend7) : Decidable (wlRel a b) :=
  inferInstanceAs (Decidable (keyLe _ _))

/-- The inclusion filter of `build_watchlist`: reject `ccu < min_ccu`; with
`require_history` demand `days >= 2 and pct >= min_pct`, otherwise admit
`days < 2 or pct >= min_pct`. -/
def wlPass (min_ccu min_pct : ℚ) (require_history : Bool) (t : Trend7) : Bool :=
  if t.ccu_latest < min_ccu then false
  else if require_history then
    decide (2 ≤ t.days_in_window) && decide (min_pct ≤ t.ccu_pct_change_7d)
  else
    decide (t.days_in_window < 2) || decide (min_pct ≤ t.ccu_pct_change_7d)

/-- `build_watchlist(trends, min_ccu, min_pct, require_history)`: the passing
rows, stably sorted descending by `(days >= 2, pct, ccu_latest)`. -/
def build_watchlist (min_ccu min_pct : ℚ) (require_history : Bool)
    (trends : List Trend7) : List Trend7 :=
  (trends.filter (wlPass min_ccu min_pct require_history)).insertionSort wlRel

/-- The claimed watchlist ordering key read off a v2.0 trend row: an item "has
a full window" exactly when its 3-day oldest value is non-null. -/
def keyV2 (tr : TrendRowV2) : Bool × ℚ × ℚ :=
  (tr.ccu_3d_ago.isSome, tr.pct_change_3d, (tr.current_players : ℚ))


/-! ### Helper lemmas -/

theorem dictGet_map_self (l : List ℤ) (f : ℤ → TrendEntry) (x : ℤ) :
    dictGet (l.map fun a => (a, f a)) x = if x ∈ l then some (f x) else none := by
  induction l with
  | nil => simp [dictGet]
  | cons a t ih =>
    simp only [List.map_cons, dictGet, List.mem_cons]
    by_cases h : a = x
    · subst h
      simp
    · rw [if_neg h, ih]
      by_cases hx : x ∈ t
      · rw [if_pos hx, if_pos (Or.inr hx)]
      · rw [if_neg hx, if_neg]
        rintro (h1 | h2)
        · exact h h1.symm
        · exact hx h2

theorem round2_intCast (n : ℤ) : round2 ((n : ℚ)) = (n : ℚ) := by
  unfold round2
  rw [show ((n : ℚ) * 100) = (((n * 100 : ℤ) : ℚ)) by push_cast; ring, round_intCast]
  push_cast
  field_simp

theorem keyLe_refl (x : Bool × ℚ × ℚ) : keyLe x x :=
  Or.inr ⟨rfl, Or.inr ⟨rfl, le_refl _⟩⟩

theorem keyLe_total (x y : Bool × ℚ × ℚ) : keyLe x y ∨ keyLe y x := by
  unfold keyLe
  rcases lt_trichotomy x.1 y.1 with h | h | h
  · exact Or.inl (Or.inl h)
  · rcases lt_trichotomy x.2.1 y.2.1 with h2 | h2 | h2
    · exact Or.inl (Or.inr ⟨h, Or.inl h2⟩)
    · rcases le_total x.2.2 y.2.2 with h3 | h3
      · exact Or.inl (Or.inr ⟨h, Or.inr ⟨h2, h3⟩⟩)
      · exact Or.inr (Or.inr ⟨h.symm, Or.inr ⟨h2.symm, h3⟩⟩)
    · exact Or.inr (Or.inr ⟨h.symm, Or.inl h2⟩)
  · exact Or.inr (Or.inl h)

theorem keyLe_trans (x y z : Bool × ℚ × ℚ) :
    keyLe x y → keyLe y z → keyLe x z := by
  unfold keyLe
  rintro (h1 | ⟨e1, h1⟩) (h2 | ⟨e2, h2⟩)
  · exact Or.inl (h1.trans h2)
  · exact Or.inl (h1.trans_eq e2)
  · exact Or.inl (e1.trans_lt h2)
  · refine Or.inr ⟨e1.trans e2, ?_⟩
    rcases h1 with h1 | ⟨f1, g1⟩ <;> rcases h2 with h2 | ⟨f2, g2⟩
    · exact Or.inl (h1.trans h2)
    · exact Or.inl (h1.trans_eq f2)
    · exact Or.inl (f1.trans_lt h2)
    · exact Or.inr ⟨f1.trans f2, g1.trans g2⟩

instance : IsTotal Trend7 wlRel :=
  ⟨fun a b => keyLe_total (wlKey b) (wlKey a)⟩

instance : IsTrans Trend7 wlRel :=
  ⟨fun a b c hab hbc => keyLe_trans (wlKey c) (wlKey b) (wlKey a) hbc hab⟩

theorem filter_orderedInsert_neg {α : Type} (r : α → α → Prop) [DecidableRel r]
    (p : α → Bool) (a : α) (l : List α) (ha : p a = false) :
    (List.orderedInsert r a l).filter p = l.filter p := by
  induction l with
  | nil => simp [List.orderedInsert, ha]
  | cons b t ih =>
    by_cases h : r a b
    · rw [List.orderedInsert, if_pos h, List.filter_cons_of_neg (by simp [ha])]
    · rw [List.orderedInsert, if_neg h, List.filter_cons, List.filter_cons, ih]

theorem filter_orderedInsert_key (a : Trend7) (l : List Trend7)
    (k : Bool × ℚ × ℚ) (ha : wlKey a = k) :
    (List.orderedInsert wlRel a l).filter (fun t => decide (wlKey t = k)) =
      a :: l.filter (fun t => decide (wlKey t = k)) := by
  induction l with
  | nil => simp [List.orderedInsert, ha]
  | cons b t ih =>
    by_cases h : wlRel a b
    · rw [List.orderedInsert, if_pos h, List.filter_cons_of_pos (by simp [ha])]
    · have hb : ¬ (wlKey b = k) := by
        intro hbk
        exact h (show keyLe (wlKey b) (wlKey a) from ha ▸ hbk ▸ keyLe_refl k)
      rw [List.orderedInsert, if_neg h, List.filter_cons_of_neg (by simp [hb]), ih,
        List.filter_cons_of_neg (by simp [hb])]

theorem insertionSort_filter_key (l : List Trend7) (k : Bool × ℚ × ℚ) :
    (l.insertionSort wlRel).filter (fun t => decide (wlKey t = k)) =
      l.filter (fun t => decide (wlKey t = k)) := by
  induction l with
  | nil => rfl
  | cons a t ih =>
    rw [List.insertionSort]
    by_cases ha : wlKey a = k
    · rw [filter_orderedInsert_key a _ k ha, ih, List.filter_cons_of_pos (by simp [ha])]
    · rw [filter_orderedInsert_neg wlRel _ a _ (by simp [ha]), ih,
        List.filter_cons_of_neg (by simp [ha])]


/-! ### Concrete instantiations used by witnesses and counterexamples

`isoEpoch` is a finite table consistent with `datetime.fromisoformat`
(UTC instants mapped to Unix epoch seconds); `intOfStr` with Python
`int` / `int(float(·))` on the listed cells; `floatOfStr` with `float(·)`. -/

def isoEpoch : String → Option ℤ := fun s =>
  if s = "2026-01-06T00:00:00+00:00" then some 1767657600
  else if s = "2026-01-09T00:00:00+00:00" then some 1767916800
  else if s = "2025-12-30T12:00:00+00:00" then some 1767096000
  else if s = "2026-01-08T12:00:00+00:00" then some 1767873600
  else none

def intOfStr : String → Option ℤ := fun s =>
  if s = "100" then some 100
  else if s = "150" then some 150
  else if s = "3" then some 3
  else if s = "4" then some 4
  else if s = "-5" then some (-5)
  else if s = "0" then some 0
  else if s = "500" then some 500
  else none

def floatOfStr : String → Option ℚ := fun s =>
  if s = "0" then some 0
  else if s = "500" then some 500
  else if s = "80" then some 80
  else none

/-- Scenario D store: one sample 10 days old, one sample 1 day old
(relative to `now = 2026-01-09T12:00:00+00:00`). -/
def scenDRows : List HistRow :=
  [⟨"2025-12-30T12:00:00+00:00", "7", "X", "100"⟩,
   ⟨"2026-01-08T12:00:00+00:00", "7", "X", "150"⟩]

/-! ### C6 -/

/-- Claim C6: the trim pass keeps the store in order (it deletes rows without
reordering the rest), and a row whose timestamp parses is retained exactly when
its timestamp is `>= cutoff`; rows with `timestamp < cutoff` are deleted. -/
theorem trim_keeps_exactly_window (parseTs : String → Option ℤ) (cutoff : ℤ)
    (rows : List HistRow) :
    (trim_history parseTs cutoff rows).Sublist rows ∧
    ∀ r t, parseTs r.timestamp_utc = some t →
      (r ∈ trim_history parseTs cutoff rows ↔ r ∈ rows ∧ cutoff ≤ t) := by
  refine ⟨List.filter_sublist _, fun r t h => ?_⟩
  unfold trim_history
  rw [List.mem_filter]
  simp [h]

/-- Witness for C6, Scenario D: with `now = 2026-01-09T12:00:00+00:00` and
cutoff `now - 8 days = 2026-01-01T12:00:00+00:00` (epoch 1767268800), the
10-day-old sample is deleted and the 1-day-old sample is kept. -/
theorem trim_keeps_exactly_window_witness :
    ((⟨"2026-01-08T12:00:00+00:00", "7", "X", "150"⟩ : HistRow) ∈
        trim_history isoEpoch 1767268800 scenDRows ↔
      (⟨"2026-01-08T12:00:00+00:00", "7", "X", "150"⟩ : HistRow) ∈ scenDRows ∧
        (1767268800 : ℤ) ≤ 1767873600) ∧
    ((⟨"2025-12-30T12:00:00+00:00", "7", "X", "100"⟩ : HistRow) ∈
        trim_history isoEpoch 1767268800 scenDRows ↔
      (⟨"2025-12-30T12:00:00+00:00", "7", "X", "100"⟩ : HistRow) ∈ scenDRows ∧
        (1767268800 : ℤ) ≤ 1767096000) :=
  ⟨(trim_keeps_exactly_window isoEpoch 1767268800 scenDRows).2 _ 1767873600 (by
      simp [isoEpoch]),
   (trim_keeps_exactly_window isoEpoch 1767268800 scenDRows).2 _ 1767096000 (by
      simp [isoEpoch])⟩

/-! ### C7 -/

/-- Claim C7: the trim pass is idempotent — trimming an already-trimmed store
with the same cutoff changes nothing — and trimming the empty store succeeds
and returns the empty store. -/
theorem trim_idempotent (parseTs : String → Option ℤ) (cutoff : ℤ)
    (rows : List HistRow) :
    trim_history parseTs cutoff (trim_history parseTs cutoff rows) =
      trim_history parseTs cutoff rows ∧
    trim_history parseTs cutoff ([] : List HistRow) = [] := by
  refine ⟨?_, rfl⟩
  unfold trim_history
  rw [List.filter_filter]
  simp only [Bool.and_self]

/-! ### C10 -/

/-- Claim C10: a history row whose `timestamp_utc` cell does not parse as an
ISO-8601 instant is always retained by the trim pass, whatever the cutoff. -/
theorem trim_keeps_unparseable (parseTs : String → Option ℤ) (cutoff : ℤ)
    (rows : List HistRow) (r : HistRow) (h : parseTs r.timestamp_utc = none) :
    r ∈ trim_history parseTs cutoff rows ↔ r ∈ rows := by
  unfold trim_history
  rw [List.mem_filter]
  simp [h]

/-- Witness for C10: a row with garbage in the timestamp cell survives a trim
that deletes everything parseable. -/
theorem trim_keeps_unparseable_witness :
    (⟨"not-a-timestamp", "7", "X", "100"⟩ : HistRow) ∈
        trim_history isoEpoch 1767268800
          [⟨"not-a-timestamp", "7", "X", "100"⟩] ↔
      (⟨"not-a-timestamp", "7", "X", "100"⟩ : HistRow) ∈
        ([⟨"not-a-timestamp", "7", "X", "100"⟩] : List HistRow) :=
  trim_keeps_unparseable isoEpoch 1767268800 _ _ (by simp [isoEpoch])


theorem toString_int_7 : toString (7 : ℤ) = "7" := rfl

theorem toString_int_9 : toString (9 : ℤ) = "9" := rfl

/-! ### C3 -/

/-- Claim C3: an item with fewer than 2 samples in the window — including an
item with no history at all — gets the defined zero-signal trend entry
`{"ccu_3d_ago": None, "pct_change_3d": 0.0}`, not an error. -/
theorem short_history_zero_signal (parseTs parseCcu : String → Option ℤ)
    (cutoff : ℤ) (rows : List HistRow) (appids : List ℤ) (appid : ℤ)
    (h : (windowSamples parseTs parseCcu cutoff rows (toString appid)).length < 2) :
    trends_3d_get parseTs parseCcu cutoff rows appids appid = ⟨none, 0⟩ := by
  unfold trends_3d_get compute_3d_trends_from_history
  by_cases hr : rows = []
  · simp [hr, dictGet]
  · rw [if_neg hr, dictGet_map_self]
    by_cases ha : appid ∈ appids
    · rw [if_pos ha]
      unfold trendForApp
      rw [if_pos h]
      rfl
    · simp [ha]

/-- Single-sample store used by the C3 witness. -/
def singleSampleRows : List HistRow :=
  [⟨"2026-01-09T00:00:00+00:00", "7", "X", "150"⟩]

/-- Witness for C3: a store holding one sample for item 7 yields the
zero-signal entry for item 7. -/
theorem short_history_zero_signal_witness :
    trends_3d_get isoEpoch intOfStr 1767657600 singleSampleRows [7] 7 =
      ⟨none, 0⟩ :=
  short_history_zero_signal isoEpoch intOfStr 1767657600 singleSampleRows [7] 7
    (by
      norm_num [windowSamples, singleSampleRows, isoEpoch, intOfStr,
        toString_int_7, List.filterMap_cons]
      simp)

/-! ### C4 -/

/-- Claim C4: with at least 2 window samples and a positive oldest value, the
3-day trend for an item is
`pct_change = (latest - oldest) / oldest * 100.0` with
`oldest_value = ` the first sample's value after the ascending timestamp
sort. -/
theorem full_window_pct_formula (parseTs parseCcu : String → Option ℤ)
    (cutoff : ℤ) (rows : List HistRow) (appids : List ℤ) (appid : ℤ)
    (hmem : appid ∈ appids) (hrows : rows ≠ [])
    (hlen : 2 ≤ (windowSamples parseTs parseCcu cutoff rows (toString appid)).length)
    (hpos : 0 < oldestCcu parseTs parseCcu cutoff rows (toString appid)) :
    dictGet (compute_3d_trends_from_history parseTs parseCcu cutoff rows appids)
        appid =
      some ⟨some (oldestCcu parseTs parseCcu cutoff rows (toString appid)),
        ((latestCcu parseTs parseCcu cutoff rows (toString appid) : ℚ) -
            (oldestCcu parseTs parseCcu cutoff rows (toString appid) : ℚ)) /
          (oldestCcu parseTs parseCcu cutoff rows (toString appid) : ℚ) * 100⟩ := by
  unfold compute_3d_trends_from_history
  rw [if_neg hrows, dictGet_map_self, if_pos hmem]
  unfold trendForApp
  rw [if_neg (by omega), if_neg (by omega)]

/-- Scenario A store: samples 100 at `t0` and 150 at `t0 + 3 days` for item 7
(`t0 = 2026-01-06T00:00:00+00:00`). -/
def scenARows : List HistRow :=
  [⟨"2026-01-06T00:00:00+00:00", "7", "X", "100"⟩,
   ⟨"2026-01-09T00:00:00+00:00", "7", "X", "150"⟩]

/-- Witness for C4, Scenario A: with `now = t0 + 3 days` the window cutoff is
`t0`, both samples are in the window, and the trend is
`oldest_value = 100`, `pct_change = 50`. -/
theorem full_window_pct_formula_witness :
    dictGet (compute_3d_trends_from_history isoEpoch intOfStr 1767657600
        scenARows [7]) 7 = some ⟨some 100, 50⟩ := by
  have h := full_window_pct_formula isoEpoch intOfStr 1767657600 scenARows [7] 7
    (by simp)
    (by simp [scenARows])
    (by
      norm_num [windowSamples, scenARows, isoEpoch, intOfStr, toString_int_7,
        List.filterMap_cons]
      simp)
    (by norm_num [oldestCcu, sortedWindow, windowSamples, scenARows, isoEpoch,
      intOfStr, toString_int_7, List.filterMap_cons, List.insertionSort,
      List.orderedInsert])
  rw [h]
  norm_num [oldestCcu, latestCcu, sortedWindow, windowSamples, scenARows,
    isoEpoch, intOfStr, toString_int_7, List.filterMap_cons,
    List.insertionSort, List.orderedInsert]


/-! ### C1 -/

/-- Claim C1 (amended): with at least 2 window samples, a non-positive oldest
value makes `compute_3d_trends_from_history` emit `pct_change = 0.0` (the
division-by-zero guard of the v2.0 script), while `compute_7d_trends` of the
v1.8.3 script instead emits `pct_change = 100.0` whenever the earliest value
in the window is `0` and the latest is positive. -/
theorem zero_baseline_pct_change :
    (∀ (parseTs parseCcu : String → Option ℤ) (cutoff : ℤ)
        (rows : List HistRow) (appids : List ℤ) (appid : ℤ),
        appid ∈ appids → rows ≠ [] →
        2 ≤ (windowSamples parseTs parseCcu cutoff rows (toString appid)).length →
        oldestCcu parseTs parseCcu cutoff rows (toString appid) ≤ 0 →
        dictGet (compute_3d_trends_from_history parseTs parseCcu cutoff rows
            appids) appid =
          some ⟨some (oldestCcu parseTs parseCcu cutoff rows (toString appid)),
            0⟩) ∧
    (∀ (pyFloat : String → Option ℚ) (log : List LogRow) (cutoff aid : String)
        (t : Trend7),
        trend7For pyFloat log cutoff aid = some t →
        fnum pyFloat ((window7 log cutoff aid).headD emptyLogRow).ccu_now = 0 →
        0 < fnum pyFloat ((window7 log cutoff aid).getLastD emptyLogRow).ccu_now →
        t.ccu_pct_change_7d = 100) := by
  constructor
  · intro parseTs parseCcu cutoff rows appids appid hmem hrows hlen hnp
    unfold compute_3d_trends_from_history
    rw [if_neg hrows, dictGet_map_self, if_pos hmem]
    unfold trendForApp
    rw [if_neg (by omega), if_pos hnp]
  · intro pf log cutoff aid t ht hzero hpos
    simp only [trend7For] at ht
    split at ht
    · exact absurd ht (by simp)
    · rw [Option.some.injEq] at ht
      subst ht
      dsimp only
      rw [hzero, if_neg (lt_irrefl 0)]
      norm_num [round2, round_eq]


/-- Log used by the C1 counterexample: one item whose earliest in-window value
is 0 and whose latest is 500. -/
def c1Log : List LogRow :=
  [⟨"2026-01-08", "1", "G", "", "", "", "", "", "0"⟩,
   ⟨"2026-01-09", "1", "G", "", "", "", "", "", "500"⟩]

/-- Zero-baseline store for the v2.0 side of C1 (Scenario C): item 7 has
samples 0 and 500 inside the 3-day window. -/
def scenCRows : List HistRow :=
  [⟨"2026-01-06T00:00:00+00:00", "7", "Z", "0"⟩,
   ⟨"2026-01-09T00:00:00+00:00", "7", "Z", "500"⟩]

/-- Counterexample for C1 as stated: in `compute_7d_trends` (cited by the
claim), the history `[0 @ 2026-01-08, 500 @ 2026-01-09]` inside the window
produces `pct_change = 100`, not `0`. -/
theorem sevenDay_zero_baseline_pct_is_100 :
    (compute_7d_trends floatOfStr c1Log "2026-01-03").map
        (fun t => t.ccu_pct_change_7d) = [100] ∧ (100 : ℚ) ≠ 0 := by
  refine ⟨?_, by norm_num⟩
  have hw : window7 c1Log "2026-01-03" "1" =
      [⟨"2026-01-08", "1", "G", "", "", "", "", "", "0"⟩,
       ⟨"2026-01-09", "1", "G", "", "", "", "", "", "500"⟩] := by
    decide
  have ht : trend7For floatOfStr c1Log "2026-01-03" "1" =
      some ⟨"1", "G", "", "", "", "", "", 500, 100, 2⟩ := by
    rw [trend7For, hw]
    norm_num [fnum, floatOfStr, round2, round_eq]
    simp
    norm_num
  have hk : logAppids c1Log = ["1"] := by
    norm_num [logAppids, c1Log]
  rw [compute_7d_trends, hk, List.filterMap_cons, ht]
  norm_num [List.insertionSort, List.orderedInsert]

/-- Witness for the amended C1: the 3-day side yields the entry
`(oldest_value = 0, pct_change = 0)` on Scenario C, and the 7-day side yields
`pct_change = 100` on the same shape of history. -/
theorem zero_baseline_pct_change_witness :
    dictGet (compute_3d_trends_from_history isoEpoch intOfStr 1767657600
        scenCRows [7]) 7 = some ⟨some 0, 0⟩ ∧
    (⟨"1", "G", "", "", "", "", "", 500, 100, 2⟩ : Trend7).ccu_pct_change_7d =
      100 := by
  have hw : window7 c1Log "2026-01-03" "1" =
      [⟨"2026-01-08", "1", "G", "", "", "", "", "", "0"⟩,
       ⟨"2026-01-09", "1", "G", "", "", "", "", "", "500"⟩] := by
    decide
  have ht : trend7For floatOfStr c1Log "2026-01-03" "1" =
      some ⟨"1", "G", "", "", "", "", "", 500, 100, 2⟩ := by
    rw [trend7For, hw]
    norm_num [fnum, floatOfStr, round2, round_eq]
    simp
    norm_num
  constructor
  · have h := zero_baseline_pct_change.1 isoEpoch intOfStr 1767657600 scenCRows
      [7] 7 (by simp) (by simp [scenCRows]) (by decide) (by decide)
    rw [h, show oldestCcu isoEpoch intOfStr 1767657600 scenCRows
      (toString (7 : ℤ)) = 0 from by decide]
  · exact zero_baseline_pct_change.2 floatOfStr c1Log "2026-01-03" "1" _ ht
      (by
        rw [hw]
        show fnum floatOfStr "0" = 0
        simp [fnum, floatOfStr])
      (by
        rw [hw]
        show (0 : ℚ) < fnum floatOfStr "500"
        simp [fnum, floatOfStr])


/-! ### C9 -/

/-- `round2 x` always has at most 2 decimal digits. -/
theorem round2_den (x : ℚ) : ∃ n : ℤ, round2 x = (n : ℚ) / 100 :=
  ⟨round (x * 100), rfl⟩

/-- Claim C9 (amended): every percentage emitted by `compute_7d_trends` is
rounded to 2 decimal digits (it is an integer multiple of 1/100); the 3-day
variant, by contrast, carries the percentage unrounded (see the
counterexample). -/
theorem sevenDay_pct_two_decimals (pyFloat : String → Option ℚ)
    (log : List LogRow) (cutoff : String) (t : Trend7)
    (h : t ∈ compute_7d_trends pyFloat log cutoff) :
    ∃ n : ℤ, t.ccu_pct_change_7d = (n : ℚ) / 100 := by
  unfold compute_7d_trends at h
  rw [List.mem_insertionSort, List.mem_filterMap] at h
  obtain ⟨aid, hmem, hsome⟩ := h
  simp only [trend7For] at hsome
  split at hsome
  · exact absurd hsome (by simp)
  · rw [Option.some.injEq] at hsome
    subst hsome
    exact round2_den _

/-- Witness for C9: the percentage of the trend computed from `c1Log` is a
2-decimal value. -/
theorem sevenDay_pct_two_decimals_witness :
    ∃ n : ℤ,
      (⟨"1", "G", "", "", "", "", "", 500, 100, 2⟩ : Trend7).ccu_pct_change_7d =
        (n : ℚ) / 100 := by
  have hw : window7 c1Log "2026-01-03" "1" =
      [⟨"2026-01-08", "1", "G", "", "", "", "", "", "0"⟩,
       ⟨"2026-01-09", "1", "G", "", "", "", "", "", "500"⟩] := by
    decide
  have ht : trend7For floatOfStr c1Log "2026-01-03" "1" =
      some ⟨"1", "G", "", "", "", "", "", 500, 100, 2⟩ := by
    rw [trend7For, hw]
    norm_num [fnum, floatOfStr, round2, round_eq]
    simp
    norm_num
  have hk : logAppids c1Log = ["1"] := by
    norm_num [logAppids, c1Log]
  have hlist : compute_7d_trends floatOfStr c1Log "2026-01-03" =
      [⟨"1", "G", "", "", "", "", "", 500, 100, 2⟩] := by
    rw [compute_7d_trends, hk, List.filterMap_cons, ht]
    norm_num [List.insertionSort, List.orderedInsert]
  exact sevenDay_pct_two_decimals floatOfStr c1Log "2026-01-03" _
    (by rw [hlist]; simp)

/-- Store used by the C9 counterexample: samples 3 then 4 inside the window
for item 9, so the raw percentage is 100/3. -/
def c9Rows : List HistRow :=
  [⟨"2026-01-06T00:00:00+00:00", "9", "W", "3"⟩,
   ⟨"2026-01-09T00:00:00+00:00", "9", "W", "4"⟩]

/-- Counterexample for C9 as stated: the v2.0 3-day computation carries
`pct_change = 100/3` into its output rows — a value that is not equal to any
2-decimal rounding of itself, so the output is not rounded to 2 digits. -/
theorem threeDay_pct_unrounded :
    dictGet (compute_3d_trends_from_history isoEpoch intOfStr 1767657600
        c9Rows [9]) 9 = some ⟨some 3, 100 / 3⟩ ∧
    round2 (100 / 3) ≠ (100 / 3 : ℚ) := by
  constructor
  · norm_num [compute_3d_trends_from_history, trendForApp, windowSamples,
      sortedWindow, oldestCcu, latestCcu, isoEpoch, intOfStr, c9Rows,
      List.insertionSort, List.orderedInsert, dictGet, toString_int_9,
      List.filterMap_cons]
    simp
  · rw [round2]
    norm_num [round_eq]


/-! ### C2 -/

/-- Claim C2: with `require_full_window` (the `--watch_require_history` flag)
false, `build_watchlist` includes every trend row that meets the metric floor
and either lacks a full window (`days_in_window < 2`) or grew by at least
`min_pct`. -/
theorem watchlist_includes_partial_window (min_ccu min_pct : ℚ)
    (trends : List Trend7) (t : Trend7) (hmem : t ∈ trends)
    (hccu : ¬ t.ccu_latest < min_ccu)
    (hor : t.days_in_window < 2 ∨ min_pct ≤ t.ccu_pct_change_7d) :
    t ∈ build_watchlist min_ccu min_pct false trends := by
  unfold build_watchlist
  rw [List.mem_insertionSort, List.mem_filter]
  refine ⟨hmem, ?_⟩
  unfold wlPass
  rw [if_neg hccu]
  simpa using hor

/-- Log used by the C2 witness (Scenario B): one sample of 80 for item 7. -/
def scenBLog : List LogRow :=
  [⟨"2026-01-09", "7", "Y", "", "", "", "", "", "80"⟩]

/-- Witness for C2, Scenario B: the single-sample item with latest value 80
is included under `min_metric = 50`, `min_pct = 25`,
`require_full_window = false`. -/
theorem watchlist_includes_partial_window_witness :
    (⟨"7", "Y", "", "", "", "", "", 80, 0, 1⟩ : Trend7) ∈
      build_watchlist 50 25 false
        (compute_7d_trends floatOfStr scenBLog "2026-01-06") := by
  have hw : window7 scenBLog "2026-01-06" "7" =
      [⟨"2026-01-09", "7", "Y", "", "", "", "", "", "80"⟩] := by
    decide
  have ht : trend7For floatOfStr scenBLog "2026-01-06" "7" =
      some ⟨"7", "Y", "", "", "", "", "", 80, 0, 1⟩ := by
    rw [trend7For, hw]
    norm_num [fnum, floatOfStr, round2, round_eq]
    simp
    norm_num
  have hk : logAppids scenBLog = ["7"] := by
    norm_num [logAppids, scenBLog]
  have hlist : compute_7d_trends floatOfStr scenBLog "2026-01-06" =
      [⟨"7", "Y", "", "", "", "", "", 80, 0, 1⟩] := by
    rw [compute_7d_trends, hk, List.filterMap_cons, ht]
    norm_num [List.insertionSort, List.orderedInsert]
  exact watchlist_includes_partial_window 50 25 _ _ (by rw [hlist]; simp)
    (by norm_num) (Or.inl (by norm_num))

/-! ### C5 -/

/-- Claim C5 (amended): history ingestion raises no error at all.  A stored
row exists exactly for each input row with a present, non-falsy app id, a
present metric cell, and a metric that `int(·)` accepts — including negative
values, which are stored rather than rejected; rows with a missing id or an
unparseable metric are silently skipped. -/
theorem append_skip_semantics (pyInt : String → Option ℤ) (now_utc : String)
    (today_rows : List TodayRow) (hr : HistRow) :
    hr ∈ rows_to_append pyInt now_utc today_rows ↔
      ∃ row ∈ today_rows, ∃ appid ccu ccu_int,
        row.steam_app_id = some appid ∧ appid ≠ 0 ∧
        row.current_players = some ccu ∧ pyInt ccu = some ccu_int ∧
        hr = ⟨now_utc, toString appid, row.game_title.getD "",
          toString ccu_int⟩ := by
  unfold rows_to_append
  rw [List.mem_filterMap]
  constructor
  · rintro ⟨row, hrow, hres⟩
    rw [Option.bind_eq_some] at hres
    obtain ⟨appid, ha, hres⟩ := hres
    by_cases h0 : appid = 0
    · rw [if_pos h0] at hres
      exact absurd hres (by simp)
    · rw [if_neg h0, Option.bind_eq_some] at hres
      obtain ⟨ccu, hc, hres⟩ := hres
      rw [Option.map_eq_some'] at hres
      obtain ⟨ci, hci, hhr⟩ := hres
      exact ⟨row, hrow, appid, ccu, ci, ha, h0, hc, hci, hhr.symm⟩
  · rintro ⟨row, hrow, appid, ccu, ci, ha, h0, hc, hci, hhr⟩
    refine ⟨row, hrow, ?_⟩
    simp [ha, h0, hc, hci, hhr]

theorem toString_int_10 : toString (10 : ℤ) = "10" := rfl

theorem toString_int_neg5 : toString (-5 : ℤ) = "-5" := rfl

/-- Counterexample for C5 as stated: a sample with metric value `-5` is not
rejected and no `ValidationError` exists — the row is appended to the store
verbatim. -/
theorem negative_metric_is_stored :
    rows_to_append intOfStr "2026-01-09T00:00:00+00:00"
        [⟨some 10, some "G", some "-5"⟩] =
      [⟨"2026-01-09T00:00:00+00:00", "10", "G", "-5"⟩] ∧ (-5 : ℤ) < 0 := by
  refine ⟨?_, by norm_num⟩
  decide

/-! ### C8 -/

/-- Claim C8 (amended): `build_watchlist` (the v1.8.3 selector) returns the
qualifying rows sorted by the key `(has full window, pct_change, latest)` in
descending lexicographic order, as a stable permutation of the filtered input
(rows with equal keys keep their input order); the v2.0 script's watchlist is
only a threshold filter that preserves insertion order and performs no
re-sorting.  Both are deterministic functions of their inputs. -/
theorem watchlist_ordering_amended :
    (∀ (min_ccu min_pct : ℚ) (rh : Bool) (trends : List Trend7),
        List.Sorted wlRel (build_watchlist min_ccu min_pct rh trends)) ∧
    (∀ (min_ccu min_pct : ℚ) (rh : Bool) (trends : List Trend7),
        (build_watchlist min_ccu min_pct rh trends).Perm
          (trends.filter (wlPass min_ccu min_pct rh))) ∧
    (∀ (min_ccu min_pct : ℚ) (rh : Bool) (trends : List Trend7)
        (k : Bool × ℚ × ℚ),
        (build_watchlist min_ccu min_pct rh trends).filter
            (fun t => decide (wlKey t = k)) =
          (trends.filter (wlPass min_ccu min_pct rh)).filter
            (fun t => decide (wlKey t = k))) ∧
    (∀ (mc : ℤ) (mp : ℚ) (trs : List TrendRowV2),
        (watch_rows mc mp trs).Sublist trs) :=
  ⟨fun _ _ _ _ => List.sorted_insertionSort wlRel _,
   fun _ _ _ _ => List.perm_insertionSort wlRel _,
   fun _ _ _ _ k => insertionSort_filter_key _ k,
   fun _ _ _ => List.filter_sublist _⟩

/-- Counterexample for C8 as stated: the v2.0 watchlist keeps two qualifying
rows in insertion order even though the second has the higher `pct_change`
(both have a full window and equal latest value), so the output violates the
claimed pct-descending ordering. -/
theorem v2_watchlist_not_resorted :
    watch_rows 100 25 [⟨1, 200, some 5, 30⟩, ⟨2, 200, some 5, 50⟩] =
      [⟨1, 200, some 5, 30⟩, ⟨2, 200, some 5, 50⟩] ∧
    ¬ List.Pairwise (fun a b => keyLe (keyV2 b) (keyV2 a))
        [(⟨1, 200, some 5, 30⟩ : TrendRowV2), ⟨2, 200, some 5, 50⟩] := by
  constructor
  · norm_num [watch_rows, List.filter]
  · intro hp
    rw [List.pairwise_cons] at hp
    have h2 := hp.1 (⟨2, 200, some 5, 50⟩ : TrendRowV2) (by simp)
    simp [keyLe, keyV2] at h2
    norm_num at h2

end SteamScout
